import Mathlib

/-!
Shallow embedding of `backend/controllers/item.controllers.js` (Vingo).

The controller exposes eight Express handlers over two Mongo collections
(shops, items), an in-memory `NodeCache`, and an external image uploader.
We model the database and cache as explicit state, each handler as a pure
function from state and request data to a response and a new state, and
the uploader as a function parameter returning `Except` (it is external
code, `utils/cloudinary.js`).

Modelling conventions, written once here:
* Mongo `ObjectId`s are modelled as a pair of a numeric `value` (the id
  itself, what Mongo compares in queries) and a `ref` tag recording the
  JavaScript heap identity of the hydrated object.  Two hydrations of the
  same stored id are distinct objects, so they share `value` but not
  `ref`.  JS `===`/`!==` on objects compares references, i.e. `ref`.
* JS numbers on the rating path are modelled as `ℚ` (the arithmetic in
  the file is exact at every claimed input, so `ℚ` is faithful there).
* `$regex: new RegExp(s, "i")` with a plain (metacharacter-free) pattern
  is case-insensitive matching: anchored `^city$` is equality of
  lower-casings, un-anchored `query` is substring containment of
  lower-casings.
* `.sort({"rating.average": -1}).limit(n)` is: sort descending by
  `rating.average`, then take `n` (Mongo applies sort before limit
  regardless of chaining order).
* The `NodeCache` is an association list; `set` prepends and `get` takes
  the most recent entry, which is observationally `set`-overwrites.  TTL
  expiry is not modelled: no claim below depends on expiry itself.
* `res.status(s).json(b)` is `some (s, b)`; `return null` (searchItems
  with missing params) is `none`: no status, no body.
-/

/-- A Mongo ObjectId as it lives on the JS heap: `value` is the id Mongo
compares in queries, `ref` the heap identity of this hydrated copy. -/
structure ObjectId where
  value : Nat
  ref : Nat
deriving Repr, DecidableEq

/-- JS strict equality on two ObjectId objects compares references. -/
def jsEqObj (a b : ObjectId) : Bool := a.ref == b.ref

/-- The embedded `rating` subdocument of an item. -/
structure RatingInfo where
  average : ℚ
  count : Nat
deriving Repr, DecidableEq

/-- An item document (the fields of `itemProjection` plus `_id`). -/
structure Item where
  id : ObjectId
  name : String
  category : String
  foodType : String
  price : ℚ
  image : Option String
  rating : RatingInfo
  shop : ObjectId
deriving Repr, DecidableEq

/-- A shop document. -/
structure Shop where
  id : ObjectId
  name : String
  image : String
  city : String
  owner : Nat
  items : List ObjectId
deriving Repr, DecidableEq

/-- The persistence store: the two collections the controller touches. -/
structure DB where
  shops : List Shop
  items : List Item
deriving Repr, DecidableEq

/-- Minimal shop info attached to items by `getItemByCity`. -/
structure ShopInfo where
  name : String
  image : String
deriving Repr, DecidableEq

/-- An item together with the `shopInfo` field `getItemByCity` adds. -/
structure ItemWithShop where
  item : Item
  shopInfo : Option ShopInfo
deriving Repr, DecidableEq

/-- A shop under `shopProjection` (`name`, `image`, `city`, plus `_id`). -/
structure ShopProj where
  id : Nat
  name : String
  image : String
  city : String
deriving Repr, DecidableEq

/-- The payload shapes the three caching reads store in the cache. -/
inductive CacheVal where
  | cityItems (l : List ItemWithShop)
  | shopItems (shop : ShopProj) (items : List Item)
  | searchRes (l : List Item)
deriving Repr, DecidableEq

/-- JSON bodies the handlers produce. -/
inductive Body where
  | msg (m : String)
  | payload (v : CacheVal)
  | itemBody (it : Item)
  | ratingVal (r : RatingInfo)
  | shopPop (shop : Option Shop) (populatedItems : List Item)
deriving Repr, DecidableEq

/-- A handler response: `some (status, body)`, or `none` when the handler
returns without responding at all. -/
abbrev Resp := Option (Nat × Body)

/-- The NodeCache instance: association list, most recent entry first. -/
abbrev Cache := List (String × CacheVal)

/-- `cache.get(k)`: the most recently set value for `k`, if any. -/
def cacheGet (c : Cache) (k : String) : Option CacheVal :=
  (c.find? (fun p => p.1 == k)).map (fun p => p.2)

/-- `cache.set(k, v)`: insert/overwrite (`get` resolves to this entry). -/
def cacheSet (c : Cache) (k : String) (v : CacheVal) : Cache :=
  (k, v) :: c

/-- Whole mutable state a handler sees: the DB and the module cache. -/
structure St where
  db : DB
  cache : Cache
deriving Repr, DecidableEq

/-- `Item.findById` / query by id: Mongo compares ObjectIds by value. -/
def findItemById (db : DB) (itemId : Nat) : Option Item :=
  db.items.find? (fun it => it.id.value == itemId)

/-- `Shop.findOne({owner: userId})`. -/
def findShopByOwner (db : DB) (userId : Nat) : Option Shop :=
  db.shops.find? (fun s => s.owner == userId)

/-- Resolve a shop's item-id list to item documents, as `populate` does;
ids whose document no longer exists are dropped.  (The `updatedAt` sort
option is not modelled: documents carry no timestamps here and no claim
depends on the populated order.) -/
def resolveItems (db : DB) (ids : List ObjectId) : List Item :=
  ids.filterMap (fun oid => db.items.find? (fun it => it.id.value == oid.value))

/-- Replace the item document whose id has this value (a one-entity
`item.save()` / `findByIdAndUpdate`). -/
def updateItemById (items : List Item) (itemId : Nat) (it2 : Item) : List Item :=
  items.map (fun x => if x.id.value == itemId then it2 else x)

/-- Replace the shop document whose id has this value (`shop.save()`). -/
def updateShopById (shops : List Shop) (shopId : Nat) (s2 : Shop) : List Shop :=
  shops.map (fun x => if x.id.value == shopId then s2 else x)

/-- Descending order on `rating.average`, the sort key of the read paths. -/
def ratingGe (a b : Item) : Prop := b.rating.average ≤ a.rating.average

instance : DecidableRel ratingGe := fun a b =>
  inferInstanceAs (Decidable (b.rating.average ≤ a.rating.average))

instance : IsTotal Item ratingGe := ⟨fun a b => le_total b.rating.average a.rating.average⟩

instance : IsTrans Item ratingGe := ⟨fun _ _ _ h1 h2 => le_trans h2 h1⟩

/-- `.sort({"rating.average": -1})`. -/
def sortByRatingDesc (l : List Item) : List Item := l.insertionSort ratingGe

/-- Does `s` start with `q` (on character lists)? -/
def listStartsWith : List Char → List Char → Bool
  | _, [] => true
  | [], _ :: _ => false
  | a :: s, b :: q => a == b && listStartsWith s q

/-- Does `q` occur as a contiguous substring of `s` (on character lists)? -/
def listHasSub : List Char → List Char → Bool
  | [], q => q.isEmpty
  | a :: s, q => listStartsWith (a :: s) q || listHasSub s q

/-- JS `toLowerCase()` (and the case-folding an `i`-flagged regex
applies), written over the character list so the kernel can evaluate it
on literals. -/
def strLower (s : String) : String := ⟨s.data.map Char.toLower⟩

/-- `field: {$regex: q, $options: "i"}` with a plain pattern:
case-insensitive substring containment. -/
def containsCI (s q : String) : Bool := listHasSub (strLower s).data (strLower q).data

/-- `city: {$regex: new RegExp("^" ++ c ++ "$", "i")}` with a plain city
string: case-insensitive exact match. -/
def cityMatches (shopCity c : String) : Bool := strLower shopCity == strLower c

/-- The external uploader `uploadOnCloudinary` (`utils/cloudinary.js`,
outside this file): takes a local path, returns a URL or fails.
Modelled from the spec: "upload first (fails with `UploadError` on
failure, aborting creation)" — failure is a thrown/rejected error that
the handler's `catch` receives. -/
abbrev Uploader := String → Except String String

/-- Run the optional upload step shared by `addItem` and `editItem`:
no file means no image; a file means the upload's result, with a failure
propagating as the caught exception. -/
def uploadStep (upload : Uploader) (file : Option String) : Except String (Option String) :=
  match file with
  | none => Except.ok none
  | some path => (upload path).map some

/-- `addItem`: upload the optional image, require a shop owned by the
requester, create the item (with `freshId`, the id Mongo assigns),
append its id to the shop's list, save the shop, respond 201 with the
populated shop. -/
def addItem (upload : Uploader) (st : St) (userId : Nat)
    (name category foodType : String) (price : ℚ)
    (file : Option String) (freshId : ObjectId) : Resp × St :=
  match uploadStep upload file with
  | Except.error e => (some (500, Body.msg ("add item error " ++ e)), st)
  | Except.ok image =>
    match findShopByOwner st.db userId with
    | none => (some (400, Body.msg "shop not found"), st)
    | some shop =>
      let item : Item :=
        { id := freshId, name := name, category := category, foodType := foodType,
          price := price, image := image, rating := { average := 0, count := 0 },
          shop := shop.id }
      let shop2 := { shop with items := shop.items ++ [item.id] }
      let db2 : DB :=
        { shops := updateShopById st.db.shops shop.id.value shop2,
          items := st.db.items ++ [item] }
      (some (201, Body.shopPop (some shop2) (resolveItems db2 shop2.items)),
       { st with db := db2 })

/-- `editItem`: upload the optional image, `findByIdAndUpdate` the item
(undefined fields are stripped by the ODM, so only supplied fields
change), then respond 200 with the requester's shop. -/
def editItem (upload : Uploader) (st : St) (userId itemId : Nat)
    (name category foodType : Option String) (price : Option ℚ)
    (file : Option String) : Resp × St :=
  match uploadStep upload file with
  | Except.error e => (some (500, Body.msg ("edit item error " ++ e)), st)
  | Except.ok image =>
    match findItemById st.db itemId with
    | none => (some (400, Body.msg "item not found"), st)
    | some it =>
      let it2 : Item :=
        { it with
          name := name.getD it.name, category := category.getD it.category,
          foodType := foodType.getD it.foodType, price := price.getD it.price,
          image := match image with | some u => some u | none => it.image }
      let db2 : DB := { st.db with items := updateItemById st.db.items itemId it2 }
      let shop? := findShopByOwner db2 userId
      (some (200, Body.shopPop shop?
         (match shop? with | some s => resolveItems db2 s.items | none => [])),
       { st with db := db2 })

/-- `getItemById`: direct uncached fetch. -/
def getItemById (st : St) (itemId : Nat) : Resp × St :=
  match findItemById st.db itemId with
  | none => (some (400, Body.msg "item not found"), st)
  | some it => (some (200, Body.itemBody it), st)

/-- `deleteItem`: `findByIdAndDelete` the item, then fetch the
requester's shop and filter its `items` list with `(i) => i !== item._id`.
That `!==` compares object references: `item._id` is a freshly hydrated
object, never the same heap object as an entry of `shop.items`, so the
filter keeps value-equal ids.  When the requester owns no shop, `shop`
is `null` and `shop.items` throws; the `catch` turns that into a 500 —
but the item has already been removed from the store. -/
def deleteItem (st : St) (itemId userId : Nat) : Resp × St :=
  match findItemById st.db itemId with
  | none => (some (400, Body.msg "item not found"), st)
  | some item =>
    let db1 : DB := { st.db with items := st.db.items.filter (fun x => !(x.id.value == itemId)) }
    match findShopByOwner db1 userId with
    | none =>
      -- `shop.items` on null throws a TypeError, caught below as a 500.
      (some (500, Body.msg "delete item error TypeError: shop is null"),
       { st with db := db1 })
    | some shop =>
      let shop2 := { shop with items := shop.items.filter (fun i => !(jsEqObj i item.id)) }
      let db2 : DB := { db1 with shops := updateShopById db1.shops shop.id.value shop2 }
      (some (200, Body.shopPop (some shop2) (resolveItems db2 shop2.items)),
       { st with db := db2 })

/-- The list `getItemByCity` assembles on a cache miss: items of the
city's shops (up to 50, sorted by descending rating average), each with
the minimal shop info joined in-memory by shop id. -/
def cityAssembled (st : St) (lc : String) : List ItemWithShop :=
  let shops := st.db.shops.filter (fun s => strLower s.city == lc)
  let shopIds := shops.map (fun s => s.id.value)
  let items := st.db.items.filter (fun it => shopIds.contains it.shop.value)
  let sorted := (sortByRatingDesc items).take 50
  sorted.map (fun it =>
    ItemWithShop.mk it
      ((shops.find? (fun s => s.id.value == it.shop.value)).map
        (fun s => ShopInfo.mk s.name s.image)))

/-- The body of `getItemByCity` once the city string has been validated;
the handler uses the city only through `city.toLowerCase()` (the cache
key) and the case-insensitive anchored regex (equality of lower-casings),
so it is factored through `lc := city.toLower`. -/
def getItemByCityLower (st : St) (lc : String) : Resp × St :=
  let key := "items_city_" ++ lc
  match cacheGet st.cache key with
  | some v => (some (200, Body.payload v), st)
  | none =>
    let shops := st.db.shops.filter (fun s => strLower s.city == lc)
    if shops.isEmpty then (some (404, Body.msg "No shops found in this city"), st)
    else
      let v := CacheVal.cityItems (cityAssembled st lc)
      (some (200, Body.payload v), { st with cache := cacheSet st.cache key v })

/-- `getItemByCity`: 400 when the city param is absent or empty (JS
falsiness of `city`), otherwise cache-first lookup keyed and queried by
the lower-cased city. -/
def getItemByCity (st : St) (city : Option String) : Resp × St :=
  match city with
  | none => (some (400, Body.msg "city is required"), st)
  | some c =>
    if c = "" then (some (400, Body.msg "city is required"), st)
    else getItemByCityLower st (strLower c)

/-- `getItemsByShop`: cache-first; on miss fetch the shop (projected) and
its items, 404 when the shop is absent, else cache and return both. -/
def getItemsByShop (st : St) (shopId : Nat) : Resp × St :=
  let key := "shop_items_" ++ toString shopId
  match cacheGet st.cache key with
  | some v => (some (200, Body.payload v), st)
  | none =>
    let shop? := st.db.shops.find? (fun s => s.id.value == shopId)
    let items := st.db.items.filter (fun it => it.shop.value == shopId)
    match shop? with
    | none => (some (404, Body.msg "shop not found"), st)
    | some s =>
      let v := CacheVal.shopItems (ShopProj.mk s.id.value s.name s.image s.city) items
      (some (200, Body.payload v), { st with cache := cacheSet st.cache key v })

/-- Is a query-string parameter JS-falsy (absent or empty)? -/
def jsFalsyStr (o : Option String) : Bool :=
  match o with
  | none => true
  | some s => s == ""

/-- `searchItems`: when `query` or `city` is falsy the handler does
`return null` — no status, no body.  Otherwise cache-first on the
lower-cased pair; on miss resolve the city's shop ids (404 when none),
find up to 25 items of those shops whose name or category contains the
query case-insensitively, sorted by descending rating average. -/
def searchItems (st : St) (query city : Option String) : Resp × St :=
  if jsFalsyStr query || jsFalsyStr city then (none, st)
  else
    let q := query.getD ""
    let c := city.getD ""
    let key := "search_" ++ strLower c ++ "_" ++ strLower q
    match cacheGet st.cache key with
    | some v => (some (200, Body.payload v), st)
    | none =>
      let shops := st.db.shops.filter (fun s => cityMatches s.city c)
      if shops.isEmpty then (some (404, Body.msg "shops not found"), st)
      else
        let shopIds := shops.map (fun s => s.id.value)
        let matched := st.db.items.filter (fun it =>
          shopIds.contains it.shop.value && (containsCI it.name q || containsCI it.category q))
        let result := (sortByRatingDesc matched).take 25
        let v := CacheVal.searchRes result
        (some (200, Body.payload v), { st with cache := cacheSet st.cache key v })

/-- Is the `rating` body field JS-falsy (absent or zero)? -/
def jsFalsyNum (o : Option ℚ) : Bool :=
  match o with
  | none => true
  | some r => r == 0

/-- The `rating` handler (`submitRating`): 400 when `itemId` or `rating`
is falsy, 400 when the rating is outside `[1, 5]`, 400 when the item does
not exist; otherwise recompute the weighted running average, save the one
item, and return the updated rating. -/
def rating (st : St) (itemId : Option Nat) (rv : Option ℚ) : Resp × St :=
  if itemId.isNone || jsFalsyNum rv then
    (some (400, Body.msg "itemId and rating is required"), st)
  else
    let iid := itemId.getD 0
    let r := rv.getD 0
    if r < 1 || 5 < r then
      (some (400, Body.msg "rating must be between 1 to 5"), st)
    else
      match findItemById st.db iid with
      | none => (some (400, Body.msg "item not found"), st)
      | some it =>
        let newCount := it.rating.count + 1
        let newAverage := (it.rating.average * it.rating.count + r) / (newCount : ℚ)
        let it2 := { it with rating := { average := newAverage, count := newCount } }
        (some (200, Body.ratingVal it2.rating),
         { st with db := { st.db with items := updateItemById st.db.items iid it2 } })

/-- Fold a sequence of rating submissions for one item over the state. -/
def submitSeq (st : St) (iid : Nat) (rs : List ℚ) : St :=
  rs.foldl (fun s v => (rating s (some iid) (some v)).2) st

/-- A demo state used to instantiate the theorems below at concrete
inputs: one shop in Pune owned by user 7, one unrated burger item.
The shop's stored copy of the item id (`ref` 1) and the item document's
own id (`ref` 2) are distinct heap objects with the same value, exactly
as two separately hydrated documents are. -/
def demoItem : Item :=
  { id := ⟨100, 2⟩, name := "Burger House Special", category := "burger",
    foodType := "veg", price := 120, image := none,
    rating := { average := 0, count := 0 }, shop := ⟨10, 3⟩ }

/-- The demo shop owning `demoItem`. -/
def demoShop : Shop :=
  { id := ⟨10, 0⟩, name := "Pune Grill", image := "shop.png", city := "Pune",
    owner := 7, items := [⟨100, 1⟩] }

/-- The demo state: the two documents above and an empty cache. -/
def demoSt : St :=
  { db := { shops := [demoShop], items := [demoItem] }, cache := [] }

/-- Replace the items collection of a state, leaving shops and cache
untouched (the state shape a one-item write produces). -/
def withItems (st : St) (items : List Item) : St :=
  { st with db := { st.db with items := items } }

/-- Replace the cache of a state, leaving the DB untouched (the state
shape a `cache.set` produces). -/
def withCache (st : St) (c : Cache) : St :=
  { st with cache := c }

/-! ## Helper lemmas -/

theorem cacheGet_cacheSet (c : Cache) (k : String) (v : CacheVal) :
    cacheGet (cacheSet c k v) k = some v := by
  simp [cacheGet, cacheSet, List.find?]

theorem find?_updateItemById (l : List Item) (iid : Nat) (it it2 : Item)
    (h : l.find? (fun x => x.id.value == iid) = some it) (hid : it2.id = it.id) :
    (updateItemById l iid it2).find? (fun x => x.id.value == iid) = some it2 := by
  induction l with
  | nil => simp [List.find?] at h
  | cons a t ih =>
    cases ha : (a.id.value == iid) with
    | true =>
      simp only [List.find?, ha] at h
      have hae : a = it := Option.some.inj h
      have h2 : (it2.id.value == iid) = true := by rw [hid, ← hae]; exact ha
      simp [updateItemById, List.find?, ha, h2]
    | false =>
      simp only [List.find?, ha] at h
      have := ih h
      simp [updateItemById, List.find?, ha] at this ⊢
      exact this

/-- One successful rating submission, fully evaluated: the shared core of
the rating claims. -/
theorem rating_step (st : St) (iid : Nat) (r : ℚ) (it : Item)
    (hfind : findItemById st.db iid = some it) (h1 : 1 ≤ r) (h5 : r ≤ 5) :
    rating st (some iid) (some r) =
      (some (200, Body.ratingVal
          ⟨(it.rating.average * it.rating.count + r) / ((it.rating.count + 1 : Nat) : ℚ),
            it.rating.count + 1⟩),
        withItems st (updateItemById st.db.items iid
          { it with rating :=
              ⟨(it.rating.average * it.rating.count + r) / ((it.rating.count + 1 : Nat) : ℚ),
                it.rating.count + 1⟩ })) := by
  have hr0 : (r == 0) = false := by
    have : r ≠ 0 := by positivity
    simpa using this
  have hlt : decide (r < 1) = false := by simp [not_lt.mpr h1]
  have hgt : decide (5 < r) = false := by simp [not_lt.mpr h5]
  simp [rating, jsFalsyNum, hr0, hlt, hgt, hfind, withItems]

theorem findItemById_withItems_update (st : St) (iid : Nat) (it it2 : Item)
    (h : findItemById st.db iid = some it) (hid : it2.id = it.id) :
    findItemById (withItems st (updateItemById st.db.items iid it2)).db iid = some it2 :=
  find?_updateItemById st.db.items iid it it2 h hid

theorem submitSeq_cons (st : St) (iid : Nat) (v : ℚ) (rs : List ℚ) :
    submitSeq st iid (v :: rs) = submitSeq (rating st (some iid) (some v)).2 iid rs := rfl

/-! ## Claim theorems -/

/-- C1: for every existing item and rating value in [1,5], the rating
handler sets `newCount = oldCount + 1` and
`newAverage = (oldAverage * oldCount + ratingValue) / newCount`, persists
both in a single entity update (only that item changes; shops and cache
are untouched), and returns the updated average and count; in
particular, from `count = 0`, submitting the sequence [5, 3, 4] yields
`count = 3` and `average = 4`. -/
theorem rating_updates_weighted_average (st : St) (iid : Nat) (r : ℚ) (it : Item)
    (hfind : findItemById st.db iid = some it) (h1 : 1 ≤ r) (h5 : r ≤ 5) :
    rating st (some iid) (some r) =
      (some (200, Body.ratingVal
          ⟨(it.rating.average * it.rating.count + r) / ((it.rating.count + 1 : Nat) : ℚ),
            it.rating.count + 1⟩),
        withItems st (updateItemById st.db.items iid
          { it with rating :=
              ⟨(it.rating.average * it.rating.count + r) / ((it.rating.count + 1 : Nat) : ℚ),
                it.rating.count + 1⟩ })) ∧
    (it.rating.count = 0 →
      findItemById (submitSeq st iid [5, 3, 4]).db iid =
        some { it with rating := ⟨4, 3⟩ }) := by
  refine ⟨rating_step st iid r it hfind h1 h5, fun hc => ?_⟩
  have e1 := rating_step st iid 5 it hfind (by norm_num) (by norm_num)
  have hv1 : ({ it with rating :=
      ⟨(it.rating.average * it.rating.count + 5) / ((it.rating.count + 1 : Nat) : ℚ),
        it.rating.count + 1⟩ } : Item) = { it with rating := ⟨5, 1⟩ } := by
    rw [hc]; norm_num
  rw [hv1] at e1
  have e1' : (rating st (some iid) (some 5)).2 =
      withItems st (updateItemById st.db.items iid { it with rating := ⟨5, 1⟩ }) := by
    rw [e1]
  have hfind1 := findItemById_withItems_update st iid it
    { it with rating := ⟨5, 1⟩ } hfind rfl
  set st1 := withItems st (updateItemById st.db.items iid { it with rating := ⟨5, 1⟩ }) with hst1
  have e2 := rating_step st1 iid 3 { it with rating := ⟨5, 1⟩ } hfind1 (by norm_num) (by norm_num)
  have hv2 : ({ { it with rating := (⟨5, 1⟩ : RatingInfo) } with rating :=
      (⟨(({ it with rating := (⟨5, 1⟩ : RatingInfo) } : Item).rating.average *
          (({ it with rating := (⟨5, 1⟩ : RatingInfo) } : Item).rating.count : ℚ) + 3) /
          (((({ it with rating := (⟨5, 1⟩ : RatingInfo) } : Item).rating.count + 1 : Nat)) : ℚ),
        ({ it with rating := (⟨5, 1⟩ : RatingInfo) } : Item).rating.count + 1⟩ : RatingInfo) } : Item) =
      { it with rating := ⟨4, 2⟩ } := by
    norm_num
  rw [hv2] at e2
  have e2' : (rating st1 (some iid) (some 3)).2 =
      withItems st1 (updateItemById st1.db.items iid { it with rating := ⟨4, 2⟩ }) := by
    rw [e2]
  have hfind2 := findItemById_withItems_update st1 iid { it with rating := ⟨5, 1⟩ }
    { it with rating := ⟨4, 2⟩ } hfind1 rfl
  set st2 := withItems st1 (updateItemById st1.db.items iid { it with rating := ⟨4, 2⟩ }) with hst2
  have e3 := rating_step st2 iid 4 { it with rating := ⟨4, 2⟩ } hfind2 (by norm_num) (by norm_num)
  have hv3 : ({ { it with rating := (⟨4, 2⟩ : RatingInfo) } with rating :=
      (⟨(({ it with rating := (⟨4, 2⟩ : RatingInfo) } : Item).rating.average *
          (({ it with rating := (⟨4, 2⟩ : RatingInfo) } : Item).rating.count : ℚ) + 4) /
          (((({ it with rating := (⟨4, 2⟩ : RatingInfo) } : Item).rating.count + 1 : Nat)) : ℚ),
        ({ it with rating := (⟨4, 2⟩ : RatingInfo) } : Item).rating.count + 1⟩ : RatingInfo) } : Item) =
      { it with rating := ⟨4, 3⟩ } := by
    norm_num
  rw [hv3] at e3
  have e3' : (rating st2 (some iid) (some 4)).2 =
      withItems st2 (updateItemById st2.db.items iid { it with rating := ⟨4, 3⟩ }) := by
    rw [e3]
  have hfind3 := findItemById_withItems_update st2 iid { it with rating := ⟨4, 2⟩ }
    { it with rating := ⟨4, 3⟩ } hfind2 rfl
  have s1 : submitSeq st iid [5, 3, 4] =
      (rating (rating (rating st (some iid) (some 5)).2 (some iid) (some 3)).2
        (some iid) (some 4)).2 := rfl
  rw [s1, e1', e2', e3']
  exact hfind3

/-- Witness for C1 at the demo state: item 100 exists with count 0. -/
theorem rating_updates_weighted_average_witness :
    rating demoSt (some 100) (some 5) =
      (some (200, Body.ratingVal
          ⟨(demoItem.rating.average * demoItem.rating.count + 5) /
              ((demoItem.rating.count + 1 : Nat) : ℚ),
            demoItem.rating.count + 1⟩),
        withItems demoSt (updateItemById demoSt.db.items 100
          { demoItem with rating :=
              ⟨(demoItem.rating.average * demoItem.rating.count + 5) /
                  ((demoItem.rating.count + 1 : Nat) : ℚ),
                demoItem.rating.count + 1⟩ })) ∧
    (demoItem.rating.count = 0 →
      findItemById (submitSeq demoSt 100 [5, 3, 4]).db 100 =
        some { demoItem with rating := ⟨4, 3⟩ }) :=
  rating_updates_weighted_average demoSt 100 5 demoItem rfl (by norm_num) (by norm_num)

/-- C7: the rating handler answers 400 for every rating value outside
[1, 5] and for every request with a missing itemId, leaving the state —
in particular the item's stored rating — unchanged. -/
theorem rating_rejects_invalid (st : St) (iid : Nat) (r : ℚ) (rv : Option ℚ)
    (hout : r < 1 ∨ 5 < r) :
    (∃ m, rating st (some iid) (some r) = (some (400, Body.msg m), st)) ∧
    rating st none rv = (some (400, Body.msg "itemId and rating is required"), st) := by
  constructor
  · by_cases h0 : r = 0
    · exact ⟨"itemId and rating is required", by simp [rating, jsFalsyNum, h0]⟩
    · refine ⟨"rating must be between 1 to 5", ?_⟩
      have hr0 : (r == 0) = false := by simpa using h0
      have hrange : (decide (r < 1) || decide (5 < r)) = true := by
        rcases hout with h | h <;> simp [h]
      simp [rating, jsFalsyNum, hr0, hrange]
  · simp [rating]

/-- Witness for C7: values 6 and 0, and a missing itemId, all at the
demo state. -/
theorem rating_rejects_invalid_witness :
    ((∃ m, rating demoSt (some 100) (some 6) = (some (400, Body.msg m), demoSt)) ∧
      rating demoSt none none =
        (some (400, Body.msg "itemId and rating is required"), demoSt)) ∧
    (∃ m, rating demoSt (some 100) (some 0) = (some (400, Body.msg m), demoSt)) :=
  ⟨rating_rejects_invalid demoSt 100 6 none (Or.inr (by norm_num)),
   (rating_rejects_invalid demoSt 100 0 none (Or.inl (by norm_num))).1⟩

/-- C2, evaluated at the failing input: deleting item 100 (owned by the
requester's shop) removes the item from the items collection, but the
owning shop's stored `items` list still contains an id with value 100.
The filter `(i) => i !== item._id` compares object references; the
hydrated `item._id` is never the same heap object as an entry of
`shop.items`, so the value-equal stale id survives. -/
theorem deleteItem_leaves_stale_shop_id :
    findItemById (deleteItem demoSt 100 7).2.db 100 = none ∧
    ∃ s ∈ (deleteItem demoSt 100 7).2.db.shops, ∃ oid ∈ s.items, oid.value = 100 := by
  decide

theorem find?_filter_not_pred (l : List Item) (p : Item → Bool) :
    (l.filter (fun x => !(p x))).find? p = none := by
  rw [List.find?_eq_none]
  intro a ha
  have h2 := (List.mem_filter.mp ha).2
  simp only [Bool.not_eq_true'] at h2
  simp [h2]

/-- C10: when the requester owns no shop, deleteItem has already removed
the item from the store before the shop lookup; the null shop is then
dereferenced and the handler answers 500, with the deletion persisted. -/
theorem deleteItem_ownerless_deletes_then_500 (st : St) (itemId userId : Nat) (it : Item)
    (hfind : findItemById st.db itemId = some it)
    (hnoshop : findShopByOwner st.db userId = none) :
    deleteItem st itemId userId =
      (some (500, Body.msg "delete item error TypeError: shop is null"),
        withItems st (st.db.items.filter (fun x => !(x.id.value == itemId)))) ∧
    findItemById (deleteItem st itemId userId).2.db itemId = none := by
  have hns : findShopByOwner
      { st.db with items := st.db.items.filter (fun x => !(x.id.value == itemId)) }
      userId = none := hnoshop
  constructor
  · simp [deleteItem, hfind, hns, withItems]
  · have : deleteItem st itemId userId =
        (some (500, Body.msg "delete item error TypeError: shop is null"),
          withItems st (st.db.items.filter (fun x => !(x.id.value == itemId)))) := by
      simp [deleteItem, hfind, hns, withItems]
    rw [this]
    exact find?_filter_not_pred st.db.items (fun x => x.id.value == itemId)

/-- Witness for C10: user 99 owns no shop in the demo state, yet item
100 is gone after the 500. -/
theorem deleteItem_ownerless_witness :
    deleteItem demoSt 100 99 =
      (some (500, Body.msg "delete item error TypeError: shop is null"),
        withItems demoSt (demoSt.db.items.filter (fun x => !(x.id.value == 100)))) ∧
    findItemById (deleteItem demoSt 100 99).2.db 100 = none :=
  deleteItem_ownerless_deletes_then_500 demoSt 100 99 demoItem rfl rfl

/-- C3: no mutation handler (addItem, editItem, deleteItem, rating) ever
removes or overwrites a cache entry: the cache component of the state is
unchanged by every mutation, so readers may serve data up to the TTL
stale after a write. -/
theorem mutations_leave_cache_unchanged (upload : Uploader) (st : St)
    (userId itemId : Nat) (nm cat ft : String) (pr : ℚ) (file : Option String)
    (fid : ObjectId) (nm? cat? ft? : Option String) (pr? : Option ℚ)
    (iid? : Option Nat) (rv : Option ℚ) :
    (addItem upload st userId nm cat ft pr file fid).2.cache = st.cache ∧
    (editItem upload st userId itemId nm? cat? ft? pr? file).2.cache = st.cache ∧
    (deleteItem st itemId userId).2.cache = st.cache ∧
    (rating st iid? rv).2.cache = st.cache := by
  refine ⟨?_, ?_, ?_, ?_⟩
  · unfold addItem
    dsimp only
    repeat' split
    all_goals rfl
  · unfold editItem
    dsimp only
    repeat' split
    all_goals rfl
  · unfold deleteItem
    dsimp only
    repeat' split
    all_goals rfl
  · unfold rating
    dsimp only
    repeat' split
    all_goals rfl

/-- C5: when the image upload fails, addItem responds 500 and the state
is unchanged — no item is created, no id is appended to any shop. -/
theorem addItem_upload_failure_creates_nothing (upload : Uploader) (st : St)
    (userId : Nat) (nm cat ft : String) (pr : ℚ) (path err : String) (fid : ObjectId)
    (hup : upload path = Except.error err) :
    addItem upload st userId nm cat ft pr (some path) fid =
      (some (500, Body.msg ("add item error " ++ err)), st) := by
  simp [addItem, uploadStep, hup, Except.map]

/-- Witness for C5: a concrete failing uploader at the demo state. -/
theorem addItem_upload_failure_witness :
    addItem (fun _ => Except.error "upload failed") demoSt 7 "Pizza" "pizza" "veg" 99
        (some "local.png") ⟨200, 9⟩ =
      (some (500, Body.msg ("add item error " ++ "upload failed")), demoSt) :=
  addItem_upload_failure_creates_nothing (fun _ => Except.error "upload failed")
    demoSt 7 "Pizza" "pizza" "veg" 99 "local.png" "upload failed" ⟨200, 9⟩ rfl

theorem listStartsWith_exists (s q : List Char) (h : listStartsWith s q = true) :
    ∃ t, s = q ++ t := by
  induction q generalizing s with
  | nil => exact ⟨s, rfl⟩
  | cons b qt ih =>
    cases s with
    | nil => simp [listStartsWith] at h
    | cons a st =>
      simp only [listStartsWith, Bool.and_eq_true, beq_iff_eq] at h
      obtain ⟨hab, hrest⟩ := h
      obtain ⟨t, ht⟩ := ih st hrest
      exact ⟨t, by simp [hab, ht]⟩

theorem listHasSub_exists (s q : List Char) (h : listHasSub s q = true) :
    ∃ pre post, s = pre ++ q ++ post := by
  induction s with
  | nil =>
    have hq : q = [] := by simpa [listHasSub] using h
    exact ⟨[], [], by simp [hq]⟩
  | cons a t ih =>
    simp only [listHasSub, Bool.or_eq_true] at h
    rcases h with h | h
    · obtain ⟨post, hp⟩ := listStartsWith_exists _ _ h
      exact ⟨[], post, by simp [hp]⟩
    · obtain ⟨pre, post, hp⟩ := ih h
      exact ⟨a :: pre, post, by simp [hp]⟩

/-- C4: on a cache miss, for a city with at least one shop, searchItems
answers 200 with a list that contains only items of that city's shops
whose name or category contains the query case-insensitively, holds at
most 25 items, and is sorted by descending rating average; the list is
also what gets cached. -/
theorem searchItems_filters_limits_sorts (st : St) (q c : String)
    (hq : q ≠ "") (hc : c ≠ "")
    (hmiss : cacheGet st.cache ("search_" ++ strLower c ++ "_" ++ strLower q) = none)
    (hshops : (st.db.shops.filter (fun s => cityMatches s.city c)).isEmpty = false) :
    ∃ l, searchItems st (some q) (some c) =
        (some (200, Body.payload (CacheVal.searchRes l)),
          withCache st (cacheSet st.cache
            ("search_" ++ strLower c ++ "_" ++ strLower q) (CacheVal.searchRes l))) ∧
      l.length ≤ 25 ∧
      List.Sorted (fun a b : Item => b.rating.average ≤ a.rating.average) l ∧
      ∀ it ∈ l, it ∈ st.db.items ∧
        (∃ s ∈ st.db.shops, strLower s.city = strLower c ∧ it.shop.value = s.id.value) ∧
        ((∃ pre post, (strLower it.name).data = pre ++ (strLower q).data ++ post) ∨
          (∃ pre post, (strLower it.category).data = pre ++ (strLower q).data ++ post)) := by
  have hfq : jsFalsyStr (some q) = false := by simp [jsFalsyStr, hq]
  have hfc : jsFalsyStr (some c) = false := by simp [jsFalsyStr, hc]
  refine ⟨(sortByRatingDesc (st.db.items.filter (fun it =>
      ((st.db.shops.filter (fun s => cityMatches s.city c)).map
        (fun s => s.id.value)).contains it.shop.value &&
      (containsCI it.name q || containsCI it.category q)))).take 25, ?_, ?_, ?_, ?_⟩
  · simp [searchItems, hfq, hfc, hmiss, hshops, withCache]
  · exact List.length_take_le _ _
  · exact List.Pairwise.sublist (List.take_sublist _ _)
      (List.sorted_insertionSort ratingGe _)
  · intro it hit
    have hmem : it ∈ st.db.items.filter (fun x =>
        ((st.db.shops.filter (fun s => cityMatches s.city c)).map
          (fun s => s.id.value)).contains x.shop.value &&
        (containsCI x.name q || containsCI x.category q)) :=
      (List.perm_insertionSort ratingGe _).mem_iff.mp (List.mem_of_mem_take hit)
    obtain ⟨hin, hpred⟩ := List.mem_filter.mp hmem
    simp only [Bool.and_eq_true, Bool.or_eq_true] at hpred
    obtain ⟨hcont, hor⟩ := hpred
    refine ⟨hin, ?_, ?_⟩
    · have hv : it.shop.value ∈ (st.db.shops.filter
          (fun s => cityMatches s.city c)).map (fun s => s.id.value) := by
        simpa using hcont
      obtain ⟨s, hs, hsv⟩ := List.mem_map.mp hv
      obtain ⟨hsdb, hcity⟩ := List.mem_filter.mp hs
      refine ⟨s, hsdb, ?_, hsv.symm⟩
      simpa [cityMatches] using hcity
    · rcases hor with h | h
      · exact Or.inl (listHasSub_exists _ _ h)
      · exact Or.inr (listHasSub_exists _ _ h)

/-- Witness for C4: searching "burger" in "Pune" at the demo state. -/
theorem searchItems_filters_limits_sorts_witness :
    ∃ l, searchItems demoSt (some "burger") (some "Pune") =
        (some (200, Body.payload (CacheVal.searchRes l)),
          withCache demoSt (cacheSet demoSt.cache
            ("search_" ++ strLower "Pune" ++ "_" ++ strLower "burger")
            (CacheVal.searchRes l))) ∧
      l.length ≤ 25 ∧
      List.Sorted (fun a b : Item => b.rating.average ≤ a.rating.average) l ∧
      ∀ it ∈ l, it ∈ demoSt.db.items ∧
        (∃ s ∈ demoSt.db.shops, strLower s.city = strLower "Pune" ∧
          it.shop.value = s.id.value) ∧
        ((∃ pre post, (strLower it.name).data = pre ++ (strLower "burger").data ++ post) ∨
          (∃ pre post, (strLower it.category).data = pre ++ (strLower "burger").data ++ post)) :=
  searchItems_filters_limits_sorts demoSt "burger" "Pune"
    (by decide) (by decide) rfl (by decide)

theorem getItemByCityLower_cases (st : St) (lc : String) :
    (∃ v, cacheGet st.cache ("items_city_" ++ lc) = some v ∧
      getItemByCityLower st lc = (some (200, Body.payload v), st)) ∨
    (cacheGet st.cache ("items_city_" ++ lc) = none ∧
      getItemByCityLower st lc = (some (404, Body.msg "No shops found in this city"), st)) ∨
    (cacheGet st.cache ("items_city_" ++ lc) = none ∧
      getItemByCityLower st lc =
        (some (200, Body.payload (CacheVal.cityItems (cityAssembled st lc))),
          withCache st (cacheSet st.cache ("items_city_" ++ lc)
            (CacheVal.cityItems (cityAssembled st lc))))) := by
  cases hcg : cacheGet st.cache ("items_city_" ++ lc) with
  | some v => exact Or.inl ⟨v, rfl, by simp [getItemByCityLower, hcg]⟩
  | none =>
    by_cases he : (st.db.shops.filter (fun s => strLower s.city == lc)).isEmpty
    · exact Or.inr (Or.inl ⟨rfl, by simp [getItemByCityLower, hcg, he]⟩)
    · exact Or.inr (Or.inr ⟨rfl, by simp [getItemByCityLower, hcg, he, withCache]⟩)

theorem getItemByCityLower_stable (st : St) (lc : String) :
    (getItemByCityLower (getItemByCityLower st lc).2 lc).1 =
      (getItemByCityLower st lc).1 := by
  rcases getItemByCityLower_cases st lc with ⟨v, hg, he⟩ | ⟨hg, he⟩ | ⟨hg, he⟩
  · rw [he]; simp [he]
  · rw [he]; simp [he]
  · rw [he]
    simp [getItemByCityLower, withCache, cacheGet_cacheSet]

/-- C6: two city strings with the same lower-casing drive getItemByCity
identically — same cache key, same shop selection, hence equal responses
and states on the same start state; and a second call with the other
casing, after the first call has run, returns the first call's payload
(on a hit it replays the entry the first call cached). -/
theorem getItemByCity_case_insensitive (st : St) (c1 c2 : String)
    (h : strLower c1 = strLower c2) (h1 : c1 ≠ "") (h2 : c2 ≠ "") :
    getItemByCity st (some c1) = getItemByCity st (some c2) ∧
    (getItemByCity (getItemByCity st (some c1)).2 (some c2)).1 =
      (getItemByCity st (some c1)).1 := by
  have e1 : getItemByCity st (some c1) = getItemByCityLower st (strLower c1) := by
    simp [getItemByCity, h1]
  have e2 : ∀ s : St, getItemByCity s (some c2) = getItemByCityLower s (strLower c2) := by
    intro s; simp [getItemByCity, h2]
  refine ⟨by rw [e1, e2, h], ?_⟩
  rw [e1, e2, ← h]
  exact getItemByCityLower_stable st (strLower c1)

/-- Witness for C6: "Pune" and "pune" at the demo state. -/
theorem getItemByCity_case_insensitive_witness :
    getItemByCity demoSt (some "Pune") = getItemByCity demoSt (some "pune") ∧
    (getItemByCity (getItemByCity demoSt (some "Pune")).2 (some "pune")).1 =
      (getItemByCity demoSt (some "Pune")).1 :=
  getItemByCity_case_insensitive demoSt "Pune" "pune" (by decide) (by decide) (by decide)

/-- C9: each of the three caching reads either leaves the cache exactly
as it was, or extends it with one entry whose payload is exactly the 200
response it returns — a not-found or error outcome is never cached, and
a hit replays a previously cached success payload. -/
theorem reads_cache_only_success_payloads (st : St) (city : Option String)
    (shopId : Nat) (q c : Option String) :
    ((getItemByCity st city).2.cache = st.cache ∨
      ∃ k v, (getItemByCity st city).2.cache = cacheSet st.cache k v ∧
        (getItemByCity st city).1 = some (200, Body.payload v)) ∧
    ((getItemsByShop st shopId).2.cache = st.cache ∨
      ∃ k v, (getItemsByShop st shopId).2.cache = cacheSet st.cache k v ∧
        (getItemsByShop st shopId).1 = some (200, Body.payload v)) ∧
    ((searchItems st q c).2.cache = st.cache ∨
      ∃ k v, (searchItems st q c).2.cache = cacheSet st.cache k v ∧
        (searchItems st q c).1 = some (200, Body.payload v)) := by
  refine ⟨?_, ?_, ?_⟩
  · cases city with
    | none => exact Or.inl rfl
    | some c' =>
      by_cases h1 : c' = ""
      · simp [getItemByCity, h1]
      · simp only [getItemByCity, if_neg h1]
        rcases getItemByCityLower_cases st (strLower c') with ⟨v, hg, he⟩ | ⟨hg, he⟩ | ⟨hg, he⟩
        · rw [he]; exact Or.inl rfl
        · rw [he]; exact Or.inl rfl
        · rw [he]; exact Or.inr ⟨_, _, rfl, rfl⟩
  · unfold getItemsByShop
    dsimp only
    cases hcg : cacheGet st.cache ("shop_items_" ++ toString shopId) with
    | some v => simp [hcg]
    | none =>
      simp only [hcg]
      cases hf : st.db.shops.find? (fun s => s.id.value == shopId) with
      | none => simp [hf]
      | some s => simp only [hf]; exact Or.inr ⟨_, _, rfl, rfl⟩
  · by_cases hf : (jsFalsyStr q || jsFalsyStr c) = true
    · simp [searchItems, hf]
    · unfold searchItems
      simp only [hf]
      cases hcg : cacheGet st.cache
          ("search_" ++ strLower (c.getD "") ++ "_" ++ strLower (q.getD "")) with
      | some v => simp [hcg]
      | none =>
        simp only [hcg]
        by_cases he : (st.db.shops.filter
            (fun s => cityMatches s.city (c.getD ""))).isEmpty
        · simp [he]
        · simp only [he]
          exact Or.inr ⟨_, _, rfl, rfl⟩

/-- C8: when the query or the city parameter is absent, searchItems
produces no response at all — no status code, no body, no state change —
while every other handler (and every other failure path) always responds
with some status and JSON body. -/
theorem searchItems_missing_params_silent (st : St) (q c : Option String)
    (upload : Uploader) (userId itemId shopId : Nat) (nm cat ft : String) (pr : ℚ)
    (file : Option String) (fid : ObjectId) (nm? cat? ft? : Option String)
    (pr? : Option ℚ) (iid? : Option Nat) (rv : Option ℚ) (city : Option String)
    (h : q = none ∨ c = none) :
    searchItems st q c = (none, st) ∧
    (addItem upload st userId nm cat ft pr file fid).1.isSome = true ∧
    (editItem upload st userId itemId nm? cat? ft? pr? file).1.isSome = true ∧
    (getItemById st itemId).1.isSome = true ∧
    (deleteItem st itemId userId).1.isSome = true ∧
    (getItemByCity st city).1.isSome = true ∧
    (getItemsByShop st shopId).1.isSome = true ∧
    (rating st iid? rv).1.isSome = true := by
  refine ⟨?_, ?_, ?_, ?_, ?_, ?_, ?_, ?_⟩
  · rcases h with h | h <;> simp [searchItems, h, jsFalsyStr]
  · unfold addItem
    dsimp only
    repeat' split
    all_goals rfl
  · unfold editItem
    dsimp only
    repeat' split
    all_goals rfl
  · unfold getItemById
    repeat' split
    all_goals rfl
  · unfold deleteItem
    dsimp only
    repeat' split
    all_goals rfl
  · cases city with
    | none => rfl
    | some c' =>
      by_cases h1 : c' = ""
      · simp [getItemByCity, h1]
      · simp only [getItemByCity, if_neg h1]
        rcases getItemByCityLower_cases st (strLower c') with ⟨v, hg, he⟩ | ⟨hg, he⟩ | ⟨hg, he⟩ <;>
          rw [he] <;> rfl
  · unfold getItemsByShop
    dsimp only
    repeat' split
    all_goals rfl
  · unfold rating
    dsimp only
    repeat' split
    all_goals rfl

/-- Witness for C8: a missing query at the demo state, against concrete
inputs for every other handler. -/
theorem searchItems_missing_params_silent_witness :
    searchItems demoSt none (some "Pune") = (none, demoSt) ∧
    (addItem (fun _ => Except.ok "url") demoSt 7 "a" "b" "c" 5 none ⟨300, 11⟩).1.isSome = true ∧
    (editItem (fun _ => Except.ok "url") demoSt 7 100 none none none none none).1.isSome = true ∧
    (getItemById demoSt 100).1.isSome = true ∧
    (deleteItem demoSt 100 7).1.isSome = true ∧
    (getItemByCity demoSt (some "Pune")).1.isSome = true ∧
    (getItemsByShop demoSt 10).1.isSome = true ∧
    (rating demoSt (some 100) (some 5)).1.isSome = true :=
  searchItems_missing_params_silent demoSt none (some "Pune")
    (fun _ => Except.ok "url") 7 100 10 "a" "b" "c" 5 none ⟨300, 11⟩
    none none none none (some 100) (some 5) (some "Pune") (Or.inl rfl)
